import Mathlib

/-!
Verification of the emissions estimation and historical-comparison engine of
the carbon-footprint tracker (src/app.js), shallowly embedded over exact
rational arithmetic (`ℚ` stands in for JavaScript numbers; `Option ℚ` models
a form value that may be absent or non-numeric, i.e. `parseFloat` returning
`NaN`; timestamps are epoch integers, the value a JavaScript `Date` coerces
to under subtraction).
-/

namespace CarbonApp

/-- Raw numeric form value: `none` models a missing element or non-numeric
text (`parseFloat` yielding `NaN`); `some x` a parsed finite number. -/
abbrev RawValue := Option ℚ

/-- Embedding of the helper `safeParseFloat` in `calculateFootprint`
(src/app.js lines 315-323): a missing element or `NaN` parse yields 0, and a
negative value yields 0, otherwise the parsed value is returned. -/
def safeParseFloat (v : RawValue) : ℚ :=
  match v with
  | none => 0
  | some x => if x < 0 then 0 else x

/-- Embedding of the percent clamp applied at each percent-typed read,
`Math.min(100, Math.max(0, ...))` (src/app.js lines 351, 370, 389). -/
def clampPercent (x : ℚ) : ℚ := min 100 (max 0 x)

/-- Transport emission factors (the `transport` group of `emissionFactors`,
src/app.js lines 16). -/
structure TransportFactors where
  car : ℚ
  flightShort : ℚ
  publicTransport : ℚ
deriving DecidableEq

/-- Energy emission factors (src/app.js line 17). -/
structure EnergyFactors where
  electricity : ℚ
  gas : ℚ
deriving DecidableEq

/-- Food emission factors (src/app.js line 18). -/
structure FoodFactors where
  meatMeal : ℚ
  dairyServing : ℚ
deriving DecidableEq

/-- Waste emission factors (src/app.js line 19); `recyclingOffset` is a
negative (credit) rate in the default table. -/
structure WasteFactors where
  wasteBag : ℚ
  recyclingOffset : ℚ
deriving DecidableEq

/-- Shopping emission factors (src/app.js line 20). -/
structure ShoppingFactors where
  general : ℚ
  electronics : ℚ
deriving DecidableEq

/-- The `emissionFactors` table of the configuration (src/app.js
lines 15-21). -/
structure EmissionFactors where
  transport : TransportFactors
  energy : EnergyFactors
  food : FoodFactors
  waste : WasteFactors
  shopping : ShoppingFactors
deriving DecidableEq

/-- The `conversions` constants of the configuration (src/app.js line 22). -/
structure Conversions where
  kgToTonnes : ℚ
  treesPerTonne : ℚ
deriving DecidableEq

/-- Configuration object as `calculateFootprint` sees it: either structural
part may be absent (`undefined` in JavaScript).  The code guards only
`emissionFactors` (line 305); an absent `conversions` is first touched at
line 423 inside the `try` block. -/
structure Config where
  emissionFactors : Option EmissionFactors
  conversions : Option Conversions
deriving DecidableEq

/-- The thirteen raw form fields read by `calculateFootprint`
(src/app.js lines 327-407), each possibly absent or non-numeric. -/
structure RawInputs where
  carMiles : RawValue
  flights : RawValue
  publicTransport : RawValue
  electricity : RawValue
  gas : RawValue
  renewablePercent : RawValue
  meatMeals : RawValue
  dairyProducts : RawValue
  localFood : RawValue
  wasteBags : RawValue
  recyclingPercent : RawValue
  shoppingSpend : RawValue
  electronics : RawValue
deriving DecidableEq

/-- The sanitized per-field values, after `safeParseFloat` on every field and
the additional 0-100 clamp on the three percent fields, exactly as each
`const` read performs it (src/app.js lines 327-407). -/
structure CleanInputs where
  carMiles : ℚ
  flights : ℚ
  publicTransport : ℚ
  electricity : ℚ
  gas : ℚ
  renewablePercent : ℚ
  meatMeals : ℚ
  dairyProducts : ℚ
  localFood : ℚ
  wasteBags : ℚ
  recyclingPercent : ℚ
  shoppingSpend : ℚ
  electronics : ℚ
deriving DecidableEq

/-- Field-by-field sanitization, as performed by the `const` reads of
`calculateFootprint` (src/app.js lines 327, 328, 329, 349, 350, 351, 368,
369, 370, 388, 389, 406, 407). -/
def sanitizeInputs (inp : RawInputs) : CleanInputs where
  carMiles := safeParseFloat inp.carMiles
  flights := safeParseFloat inp.flights
  publicTransport := safeParseFloat inp.publicTransport
  electricity := safeParseFloat inp.electricity
  gas := safeParseFloat inp.gas
  renewablePercent := clampPercent (safeParseFloat inp.renewablePercent)
  meatMeals := safeParseFloat inp.meatMeals
  dairyProducts := safeParseFloat inp.dairyProducts
  localFood := clampPercent (safeParseFloat inp.localFood)
  wasteBags := safeParseFloat inp.wasteBags
  recyclingPercent := clampPercent (safeParseFloat inp.recyclingPercent)
  shoppingSpend := safeParseFloat inp.shoppingSpend
  electronics := safeParseFloat inp.electronics

/-- The per-category breakdown stored in `appState.currentCalculation`
(src/app.js lines 434-440), in kg CO2e. -/
structure Breakdown where
  transport : ℚ
  energy : ℚ
  food : ℚ
  waste : ℚ
  shopping : ℚ
deriving DecidableEq

/-- The calculation record stored in `appState.currentCalculation` on the
successful path (src/app.js lines 430-441): `co2e` is the total in tonnes. -/
structure Calculation where
  co2e : ℚ
  breakdown : Breakdown
deriving DecidableEq

/-- The arithmetic of `calculateFootprint` on already sanitized values
(src/app.js lines 331-441): the per-category formulas, the running total
`totalCo2e`, the conversion to tonnes, and the stored breakdown. -/
def computeClean (factors : EmissionFactors) (conv : Conversions)
    (s : CleanInputs) : Calculation :=
  let transportCarCo2e := s.carMiles * factors.transport.car * 12
  let transportFlightsCo2e := s.flights * 1000 * factors.transport.flightShort
  let transportPublicCo2e :=
    s.publicTransport * factors.transport.publicTransport * 12
  let electricityEmissions :=
    s.electricity * factors.energy.electricity * (1 - s.renewablePercent / 100) * 12
  let gasCo2e := s.gas * factors.energy.gas * 12
  let meatReduction := max 0.8 (1 - (s.localFood / 100) * 0.2)
  let foodMeatCo2e := s.meatMeals * factors.food.meatMeal * 52 * meatReduction
  let foodDairyCo2e := s.dairyProducts * factors.food.dairyServing * 52
  let wasteEmissions := s.wasteBags * factors.waste.wasteBag * 52
  let recyclingOffset :=
    wasteEmissions * (s.recyclingPercent / 100) * |factors.waste.recyclingOffset|
  let wasteCo2e := wasteEmissions - recyclingOffset
  let shoppingCo2e := s.shoppingSpend * factors.shopping.general * 12
  let electronicsCo2e := s.electronics * factors.shopping.electronics
  let totalCo2e :=
    transportCarCo2e + transportFlightsCo2e + transportPublicCo2e
      + electricityEmissions + gasCo2e + foodMeatCo2e + foodDairyCo2e
      + wasteCo2e + shoppingCo2e + electronicsCo2e
  { co2e := totalCo2e * conv.kgToTonnes
    breakdown :=
      { transport := transportCarCo2e + transportFlightsCo2e + transportPublicCo2e
        energy := electricityEmissions + gasCo2e
        food := foodMeatCo2e + foodDairyCo2e
        waste := wasteCo2e
        shopping := shoppingCo2e + electronicsCo2e } }

/-- The estimation engine on raw inputs, given a complete configuration:
sanitize every field, then run the category formulas (src/app.js
lines 314-441).  This is the spec's `estimate(input, factors)`. -/
def computeFootprint (factors : EmissionFactors) (conv : Conversions)
    (inp : RawInputs) : Calculation :=
  computeClean factors conv (sanitizeInputs inp)

/-- Outcome of a `calculateFootprint` call (src/app.js lines 299-467):
`configError` is the early `return false` with an alert when `CONFIG` or
`CONFIG.emissionFactors` is missing (lines 305-309, nothing stored);
`caughtZero` is the `catch` path (lines 450-464) reached when a property
access inside the `try` throws, which stores and displays a zero result;
`ok` is the successful path. -/
inductive CalcOutcome where
  | configError : CalcOutcome
  | caughtZero : CalcOutcome
  | ok : Calculation → CalcOutcome
deriving DecidableEq

/-- Embedding of `calculateFootprint` (src/app.js lines 299-467).  The only
guarded precondition is `!CONFIG_TO_USE || !CONFIG_TO_USE.emissionFactors`
(line 305).  With the factor table present, the one remaining fallible
access in the `try` block of the rational model is
`CONFIG_TO_USE.conversions.kgToTonnes` (line 423): if `conversions` is
absent that access throws a `TypeError`, landing in the `catch` path. -/
def calculateFootprint (cfg : Option Config) (inp : RawInputs) : CalcOutcome :=
  match cfg with
  | none => .configError
  | some c =>
    match c.emissionFactors with
    | none => .configError
    | some factors =>
      match c.conversions with
      | none => .caughtZero
      | some conv => .ok (computeFootprint factors conv inp)

/-- The `co2e` value stored into `appState.currentCalculation` by each
outcome: nothing on the early config failure (lines 305-309 store nothing),
`0` on the caught-error path (line 454-460), the raw total on success
(line 431). -/
def storedCo2e : CalcOutcome → Option ℚ
  | .configError => none
  | .caughtZero => some 0
  | .ok c => some c.co2e

/-- The display clamp of `displayCalculationResult` (src/app.js line 502):
`isNaN(tonnes) || tonnes < 0 ? 0 : tonnes`.  `NaN` does not arise in the
rational model, leaving the negative clamp. -/
def displayValue (tonnes : ℚ) : ℚ := if tonnes < 0 then 0 else tonnes

/-- The value handed to `displayCalculationResult` and shown (after the
display clamp) for each outcome: nothing on the early config failure (only
an alert fires), `0` on the caught path (line 462), the computed total on
success (line 448). -/
def displayedCo2e : CalcOutcome → Option ℚ
  | .configError => none
  | .caughtZero => some (displayValue 0)
  | .ok c => some (displayValue c.co2e)

/-- A persisted carbon log entry as the comparison logic reads it:
`co2e` (tonnes, possibly absent) and the numeric timestamp a `Date`
coerces to.  Other persisted fields (`id`, `category`, `notes`) are not
consulted by the engine. -/
structure LogEntry where
  co2e : Option ℚ
  timestamp : ℤ
deriving DecidableEq

/-- JavaScript truthiness of `previousCalculation.co2e` as tested by the
guards at src/app.js lines 524 and 585: an absent or zero value is falsy. -/
def co2eTruthy (e : LogEntry) : Bool :=
  match e.co2e with
  | none => false
  | some v => v != 0

/-- Descending-timestamp order used by the comparator
`(a, b) => dateB - dateA` at src/app.js lines 475-479: `a` is kept before
`b` exactly when `b`'s date does not exceed `a`'s. -/
def tsLe (a b : LogEntry) : Bool := decide (b.timestamp ≤ a.timestamp)

/-- Embedding of `getPreviousCalculation` (src/app.js lines 470-482):
return `null` on an empty store, otherwise stable-sort descending by
timestamp (ES2019 `Array.prototype.sort` is stable; `List.mergeSort` is the
matching stable sort) and take the first element. -/
def getPreviousCalculation (logs : List LogEntry) : Option LogEntry :=
  if logs.length = 0 then none
  else (logs.mergeSort tsLe).head?

/-- The spec's `ComparisonResult` shape: `previous` is `none` exactly when
no comparison is available. -/
structure ComparisonResult where
  previous : Option LogEntry
  deltaTonnes : ℚ
  percentChange : ℚ
deriving DecidableEq

/-- The comparison values computed inside `displayCalculationResult`
(src/app.js lines 501-538), packaged in the spec's `ComparisonResult`
shape: the code first clamps the incoming total (line 502), then, only when
`previousCalculation && previousCalculation.co2e` is truthy (line 524),
computes `difference = displayValue - previousValue` (line 526) and
`percentChange = previousValue > 0 ? difference / previousValue * 100 : 0`
(line 527); otherwise no comparison is made, which the result shape records
as the null comparison. -/
def compareWithPrevious (tonnes : ℚ) (previousCalculation : Option LogEntry) :
    ComparisonResult :=
  let dv := displayValue tonnes
  match previousCalculation with
  | some p =>
    if co2eTruthy p then
      let previousValue := p.co2e.getD 0
      let difference := dv - previousValue
      let percentChange :=
        if 0 < previousValue then difference / previousValue * 100 else 0
      { previous := some p, deltaTonnes := difference, percentChange := percentChange }
    else
      { previous := none, deltaTonnes := 0, percentChange := 0 }
  | none => { previous := none, deltaTonnes := 0, percentChange := 0 }

/-- The delta suffix appended to the notes string by `saveCalculation`
(src/app.js lines 581-595). -/
inductive NoteSuffix where
  | base : NoteSuffix
  | reduction : ℚ → NoteSuffix
  | increase : ℚ → NoteSuffix
deriving DecidableEq

/-- Embedding of the notes composition of `saveCalculation` (src/app.js
lines 581-595): starting from the base notes, a delta suffix is appended
only when the previous entry's `co2e` is truthy (line 585) and the absolute
difference from the raw current total exceeds 0.01 (line 588). -/
def saveNotesSuffix (currentCo2e : ℚ) (previousCalculation : Option LogEntry) :
    NoteSuffix :=
  match previousCalculation with
  | some p =>
    if co2eTruthy p then
      let previousValue := p.co2e.getD 0
      let difference := currentCo2e - previousValue
      if 0.01 < |difference| then
        if difference < 0 then .reduction |difference| else .increase difference
      else .base
    else .base
  | none => .base

/-- The thirteen input fields of `CategoryInput`, for stating the per-field
clamping properties. -/
inductive Field where
  | carMiles | flights | publicTransport | electricity | gas
  | renewablePercent | meatMeals | dairyProducts | localFood
  | wasteBags | recyclingPercent | shoppingSpend | electronics
deriving DecidableEq

/-- Replace one field of the raw inputs. -/
def setField (inp : RawInputs) (f : Field) (v : RawValue) : RawInputs :=
  match f with
  | .carMiles => { inp with carMiles := v }
  | .flights => { inp with flights := v }
  | .publicTransport => { inp with publicTransport := v }
  | .electricity => { inp with electricity := v }
  | .gas => { inp with gas := v }
  | .renewablePercent => { inp with renewablePercent := v }
  | .meatMeals => { inp with meatMeals := v }
  | .dairyProducts => { inp with dairyProducts := v }
  | .localFood => { inp with localFood := v }
  | .wasteBags => { inp with wasteBags := v }
  | .recyclingPercent => { inp with recyclingPercent := v }
  | .shoppingSpend => { inp with shoppingSpend := v }
  | .electronics => { inp with electronics := v }

/-- The three percent-typed fields, the ones additionally clamped to
0-100 (src/app.js lines 351, 370, 389). -/
def Field.isPercent : Field → Prop
  | .renewablePercent => True
  | .localFood => True
  | .recyclingPercent => True
  | _ => False

/-- The fallback emission-factor table of `getConfig` (src/app.js
lines 15-21). -/
def defaultFactors : EmissionFactors where
  transport := { car := 0.41, flightShort := 0.158, publicTransport := 0.053 }
  energy := { electricity := 0.233, gas := 5.3 }
  food := { meatMeal := 7.19, dairyServing := 2.5 }
  waste := { wasteBag := 2.5, recyclingOffset := -1.2 }
  shopping := { general := 0.005, electronics := 50 }

/-- The fallback conversion constants of `getConfig` (src/app.js line 22). -/
def defaultConversions : Conversions where
  kgToTonnes := 0.001
  treesPerTonne := 20

/-- Raw inputs with every field present and zero. -/
def zeroInputs : RawInputs where
  carMiles := some 0
  flights := some 0
  publicTransport := some 0
  electricity := some 0
  gas := some 0
  renewablePercent := some 0
  meatMeals := some 0
  dairyProducts := some 0
  localFood := some 0
  wasteBags := some 0
  recyclingPercent := some 0
  shoppingSpend := some 0
  electronics := some 0

/-- Sum of the five breakdown categories, in kg. -/
def breakdownSumKg (c : Calculation) : ℚ :=
  c.breakdown.transport + c.breakdown.energy + c.breakdown.food
    + c.breakdown.waste + c.breakdown.shopping

/-- Configuration with both the default factor table and the default
conversion constants present. -/
def fullDefaultConfig : Config where
  emissionFactors := some defaultFactors
  conversions := some defaultConversions

/-- The end-to-end example input of the spec: carMiles 100, electricity 300,
renewablePercent 50, every other field present and zero. -/
def mixedExampleInputs : RawInputs :=
  { zeroInputs with carMiles := some 100, electricity := some 300, renewablePercent := some 50 }

/-- The negative-waste edge-case input: one waste bag per week and 100
percent recycling, every other field zero. -/
def negativeWasteInputs : RawInputs :=
  { zeroInputs with wasteBags := some 1, recyclingPercent := some 100 }

/-- Replacing a field by a negative value sanitizes identically to
replacing it by 0. -/
theorem sanitize_setField_neg (inp : RawInputs) (f : Field) (x : ℚ) (h : x < 0) :
    sanitizeInputs (setField inp f (some x)) = sanitizeInputs (setField inp f (some 0)) := by
  cases f <;> simp [sanitizeInputs, setField, safeParseFloat, h]

/-- Replacing a field by an absent or non-numeric value sanitizes
identically to replacing it by 0. -/
theorem sanitize_setField_none (inp : RawInputs) (f : Field) :
    sanitizeInputs (setField inp f none) = sanitizeInputs (setField inp f (some 0)) := by
  cases f <;> simp [sanitizeInputs, setField, safeParseFloat]

/-- The percent clamp sends any value at least 100 to 100. -/
theorem clampPercent_of_ge100 (x : ℚ) (h : 100 ≤ x) : clampPercent x = 100 := by
  unfold clampPercent
  rw [max_eq_right (by linarith), min_eq_left h]

/-- Replacing a percent field by a value above 100 sanitizes identically to
replacing it by 100. -/
theorem sanitize_setField_over100 (inp : RawInputs) (f : Field) (hf : f.isPercent)
    (x : ℚ) (h : 100 < x) :
    sanitizeInputs (setField inp f (some x)) = sanitizeInputs (setField inp f (some 100)) := by
  have hx : ¬ x < 0 := by linarith
  have h1 : clampPercent x = 100 := clampPercent_of_ge100 x (le_of_lt h)
  have h2 : clampPercent 100 = 100 := clampPercent_of_ge100 100 le_rfl
  cases f <;> simp [Field.isPercent] at hf <;>
    simp [sanitizeInputs, setField, safeParseFloat, hx, h1] <;> norm_num [h2]

/-- The descending-timestamp comparison is transitive. -/
theorem tsLe_trans : ∀ a b c : LogEntry, tsLe a b → tsLe b c → tsLe a c := by
  intro a b c
  simp only [tsLe, decide_eq_true_eq]
  omega

/-- The descending-timestamp comparison is total. -/
theorem tsLe_total : ∀ a b : LogEntry, tsLe a b || tsLe b a := by
  intro a b
  simp only [tsLe, Bool.or_eq_true, decide_eq_true_eq]
  omega

/-- Head of the stable descending sort: for a non-empty log list, the head
of `mergeSort tsLe` is the earliest-positioned entry whose timestamp is
maximal (entries strictly before it in the original list have strictly
smaller timestamps). -/
theorem head_mergeSort_firstMax (logs : List LogEntry) (hne : logs ≠ []) :
    ∃ e l₁ l₂, (logs.mergeSort tsLe).head? = some e ∧ logs = l₁ ++ e :: l₂
      ∧ (∀ x ∈ logs, x.timestamp ≤ e.timestamp)
      ∧ (∀ x ∈ l₁, x.timestamp < e.timestamp) := by
  induction logs with
  | nil => exact absurd rfl hne
  | cons a l ih =>
    obtain ⟨m₁, m₂, h₁, h₂, h₃⟩ := List.mergeSort_cons tsLe_trans tsLe_total a l
    cases m₁ with
    | nil =>
      simp only [List.nil_append] at h₁ h₂
      have sorted := List.sorted_mergeSort tsLe_trans tsLe_total (a :: l)
      rw [h₁] at sorted
      refine ⟨a, [], l, ?_, rfl, ?_, by simp⟩
      · rw [h₁]
        rfl
      intro x hx
      rcases List.mem_cons.mp hx with rfl | hx
      · exact le_refl _
      · have hx2 : x ∈ m₂ := by
          rw [← h₂, List.mem_mergeSort]
          exact hx
        have hrel := List.rel_of_pairwise_cons sorted hx2
        simpa [tsLe] using hrel
    | cons c m₁' =>
      have hl : l ≠ [] := by
        intro hl0
        subst hl0
        simp at h₂
      obtain ⟨e, u, v, hh, hd, hmax, hstrict⟩ := ih hl
      rw [h₂] at hh
      simp only [List.cons_append, List.head?_cons, Option.some.injEq] at hh
      subst hh
      have hac : a.timestamp < c.timestamp := by
        have hb := h₃ c (List.mem_cons_self c m₁')
        simp only [tsLe, Bool.not_eq_true', decide_eq_false_iff_not, not_le] at hb
        exact hb
      refine ⟨c, a :: u, v, ?_, ?_, ?_, ?_⟩
      · rw [h₁]
        rfl
      · rw [List.cons_append, hd]
      · intro x hx
        rcases List.mem_cons.mp hx with rfl | hx
        · exact le_of_lt hac
        · exact hmax x hx
      · intro x hx
        rcases List.mem_cons.mp hx with rfl | hx
        · exact hac
        · exact hstrict x hx

/-- C1: for every factor table, conversion constants and raw input, the
total of `estimate()` equals the sum of the five breakdown category values
in kg times the kgToTonnes constant — exactly in the rational model, hence
in particular within the claimed 1e-9 relative tolerance. -/
theorem claim_C1_totalTonnes_eq_breakdown_sum (factors : EmissionFactors)
    (conv : Conversions) (inp : RawInputs) :
    (computeFootprint factors conv inp).co2e
        = breakdownSumKg (computeFootprint factors conv inp) * conv.kgToTonnes
      ∧ |(computeFootprint factors conv inp).co2e
            - breakdownSumKg (computeFootprint factors conv inp) * conv.kgToTonnes|
          ≤ 1 / 1000000000
              * |breakdownSumKg (computeFootprint factors conv inp) * conv.kgToTonnes| := by
  have h : (computeFootprint factors conv inp).co2e
      = breakdownSumKg (computeFootprint factors conv inp) * conv.kgToTonnes := by
    simp only [computeFootprint, computeClean, breakdownSumKg]
    ring
  refine ⟨h, ?_⟩
  rw [h, sub_self, abs_zero]
  positivity

/-- C2, counterexample: the claim "when previous is non-null, deltaTonnes =
current.totalTonnes − previous.co2e" fails at current.totalTonnes = 5 and a
previous entry with co2e = 0: the guard treats a zero co2e as falsy, no
comparison is computed, and deltaTonnes is 0, not 5 − 0. -/
theorem claim_C2_counterexample :
    ¬ ((compareWithPrevious 5 (some { co2e := some 0, timestamp := 0 })).deltaTonnes
        = 5 - 0) := by
  simp [compareWithPrevious, co2eTruthy]

/-- C2, amended: the null comparison is returned when previous is null or
its co2e is 0 or absent; with a nonzero previous co2e, deltaTonnes is the
display-clamped current total minus previous.co2e, and percentChange is
(deltaTonnes / previous.co2e) × 100 when previous.co2e > 0 and 0 otherwise;
the concrete example compare(5 tonnes, previous co2e 4) gives delta 1 and
percent 25. -/
theorem claim_C2_compare_amended (t : ℚ) (p : LogEntry) (v : ℚ) :
    (compareWithPrevious t none
        = { previous := none, deltaTonnes := 0, percentChange := 0 })
    ∧ (p.co2e = some v → v ≠ 0 →
        compareWithPrevious t (some p)
          = { previous := some p, deltaTonnes := displayValue t - v,
              percentChange := if 0 < v then (displayValue t - v) / v * 100 else 0 })
    ∧ ((p.co2e = some 0 ∨ p.co2e = none) →
        compareWithPrevious t (some p)
          = { previous := none, deltaTonnes := 0, percentChange := 0 })
    ∧ compareWithPrevious 5 (some { co2e := some 4, timestamp := 0 })
        = { previous := some { co2e := some 4, timestamp := 0 }, deltaTonnes := 1,
            percentChange := 25 } := by
  refine ⟨rfl, ?_, ?_, ?_⟩
  · intro hv hv0
    simp [compareWithPrevious, co2eTruthy, hv, hv0]
  · rintro (h | h) <;> simp [compareWithPrevious, co2eTruthy, h]
  · norm_num [compareWithPrevious, co2eTruthy, displayValue]

/-- C2, witness: the amended comparison contract evaluated at the concrete
example current total 5 and previous co2e 4. -/
theorem claim_C2_compare_amended_witness :
    ({ co2e := some 4, timestamp := 0 } : LogEntry).co2e = some 4 ∧ (4 : ℚ) ≠ 0
    ∧ compareWithPrevious 5 (some { co2e := some 4, timestamp := 0 })
        = { previous := some { co2e := some 4, timestamp := 0 },
            deltaTonnes := displayValue 5 - 4,
            percentChange := if (0 : ℚ) < 4 then (displayValue 5 - 4) / 4 * 100 else 0 } :=
  ⟨rfl, by norm_num,
   (claim_C2_compare_amended 5 { co2e := some 4, timestamp := 0 } 4).2.1 rfl (by norm_num)⟩

/-- C3: mostRecent of the empty store is null; for a non-empty store it is
an entry of the store with maximal timestamp such that every entry placed
before it in the original order has a strictly smaller timestamp (ties go
to the earliest-positioned entry); in particular a singleton returns its
entry and a two-entry store with timestamps 1 then 2 returns the second. -/
theorem claim_C3_mostRecent :
    getPreviousCalculation [] = none
    ∧ (∀ logs : List LogEntry, logs ≠ [] →
        ∃ e l₁ l₂, getPreviousCalculation logs = some e ∧ logs = l₁ ++ e :: l₂
          ∧ (∀ x ∈ logs, x.timestamp ≤ e.timestamp)
          ∧ (∀ x ∈ l₁, x.timestamp < e.timestamp))
    ∧ (∀ a : LogEntry, getPreviousCalculation [a] = some a)
    ∧ (∀ a b : LogEntry, a.timestamp = 1 → b.timestamp = 2 →
        getPreviousCalculation [a, b] = some b) := by
  have hget : ∀ logs : List LogEntry, logs ≠ [] →
      getPreviousCalculation logs = (logs.mergeSort tsLe).head? := by
    intro logs h
    unfold getPreviousCalculation
    rw [if_neg (by simpa using h)]
  refine ⟨rfl, ?_, ?_, ?_⟩
  · intro logs h
    obtain ⟨e, l₁, l₂, hh, hd, hmax, hstrict⟩ := head_mergeSort_firstMax logs h
    exact ⟨e, l₁, l₂, by rw [hget logs h]; exact hh, hd, hmax, hstrict⟩
  · intro a
    rw [hget [a] (by simp), List.mergeSort_singleton]
    rfl
  · intro a b ha hb
    obtain ⟨e, l₁, l₂, hh, hd, hmax, hstrict⟩ :=
      head_mergeSort_firstMax [a, b] (by simp)
    have he : e ∈ [a, b] := by
      rw [hd]
      exact List.mem_append_right l₁ (List.mem_cons_self e l₂)
    have heb : e = b := by
      rcases List.mem_cons.mp he with rfl | he2
      · have := hmax b (by simp)
        omega
      · simpa using he2
    rw [hget [a, b] (by simp), hh, heb]

/-- C3, witness: the non-empty case of the mostRecent contract evaluated on
a concrete one-entry store. -/
theorem claim_C3_mostRecent_witness :
    ([({ co2e := some 1, timestamp := 5 } : LogEntry)] ≠ [])
    ∧ ∃ e l₁ l₂,
        getPreviousCalculation [({ co2e := some 1, timestamp := 5 } : LogEntry)] = some e
        ∧ [({ co2e := some 1, timestamp := 5 } : LogEntry)] = l₁ ++ e :: l₂
        ∧ (∀ x ∈ [({ co2e := some 1, timestamp := 5 } : LogEntry)],
            x.timestamp ≤ e.timestamp)
        ∧ (∀ x ∈ l₁, x.timestamp < e.timestamp) :=
  ⟨by simp, claim_C3_mostRecent.2.1 [{ co2e := some 1, timestamp := 5 }] (by simp)⟩

/-- C4: replacing any field by a negative value yields the same result as
replacing it by 0, and for the three percent-typed fields a value above 100
yields the same result as 100 and a value below 0 the same result as 0. -/
theorem claim_C4_clamping (factors : EmissionFactors) (conv : Conversions)
    (inp : RawInputs) (f : Field) (x : ℚ) :
    (x < 0 →
      computeFootprint factors conv (setField inp f (some x))
        = computeFootprint factors conv (setField inp f (some 0)))
    ∧ (f.isPercent → 100 < x →
        computeFootprint factors conv (setField inp f (some x))
          = computeFootprint factors conv (setField inp f (some 100)))
    ∧ (f.isPercent → x < 0 →
        computeFootprint factors conv (setField inp f (some x))
          = computeFootprint factors conv (setField inp f (some 0))) :=
  ⟨fun h => congrArg (computeClean factors conv) (sanitize_setField_neg inp f x h),
   fun hf h => congrArg (computeClean factors conv) (sanitize_setField_over100 inp f hf x h),
   fun _ h => congrArg (computeClean factors conv) (sanitize_setField_neg inp f x h)⟩

/-- C4, witness: the clamping property evaluated at gas = −5 and at
renewablePercent = 250 over the default configuration. -/
theorem claim_C4_clamping_witness :
    ((-5 : ℚ) < 0
      ∧ computeFootprint defaultFactors defaultConversions (setField zeroInputs .gas (some (-5)))
          = computeFootprint defaultFactors defaultConversions (setField zeroInputs .gas (some 0)))
    ∧ (Field.isPercent .renewablePercent ∧ (100 : ℚ) < 250
      ∧ computeFootprint defaultFactors defaultConversions
            (setField zeroInputs .renewablePercent (some 250))
          = computeFootprint defaultFactors defaultConversions
            (setField zeroInputs .renewablePercent (some 100))) :=
  ⟨⟨by norm_num,
    (claim_C4_clamping defaultFactors defaultConversions zeroInputs .gas (-5)).1 (by norm_num)⟩,
   ⟨trivial, by norm_num,
    (claim_C4_clamping defaultFactors defaultConversions zeroInputs .renewablePercent 250).2.1
      trivial (by norm_num)⟩⟩

/-- C5: the waste category is emitted kg (bags × factor × 52) minus the
recycling offset (emitted × percent/100 × |offset factor|) with no flooring
at 0; with wasteBags 1, recyclingPercent 100, wasteBag factor 2.5 and
recyclingOffset −1.2 the waste breakdown value is −26 kg. -/
theorem claim_C5_waste_formula (factors : EmissionFactors) (conv : Conversions)
    (inp : RawInputs) :
    ((computeFootprint factors conv inp).breakdown.waste
        = safeParseFloat inp.wasteBags * factors.waste.wasteBag * 52
          - safeParseFloat inp.wasteBags * factors.waste.wasteBag * 52
              * (clampPercent (safeParseFloat inp.recyclingPercent) / 100)
              * |factors.waste.recyclingOffset|)
    ∧ (∀ wb rp : ℚ, inp.wasteBags = some wb → 0 ≤ wb →
        inp.recyclingPercent = some rp → 0 ≤ rp → rp ≤ 100 →
        (computeFootprint factors conv inp).breakdown.waste
          = wb * factors.waste.wasteBag * 52
            - wb * factors.waste.wasteBag * 52 * (rp / 100)
                * |factors.waste.recyclingOffset|)
    ∧ (computeFootprint defaultFactors defaultConversions negativeWasteInputs).breakdown.waste
        = -26 := by
  refine ⟨by simp [computeFootprint, computeClean, sanitizeInputs], ?_, ?_⟩
  · intro wb rp hwb hwb0 hrp hrp0 hrp100
    have h1 : safeParseFloat inp.wasteBags = wb := by
      simp [safeParseFloat, hwb, not_lt.mpr hwb0]
    have h2 : clampPercent (safeParseFloat inp.recyclingPercent) = rp := by
      simp [safeParseFloat, clampPercent, hrp, not_lt.mpr hrp0,
        max_eq_right hrp0, min_eq_right hrp100]
    simp [computeFootprint, computeClean, sanitizeInputs, h1, h2]
  · have habs : |(6 / 5 : ℚ)| = 6 / 5 := abs_of_pos (by norm_num)
    norm_num [computeFootprint, computeClean, sanitizeInputs, safeParseFloat,
      clampPercent, defaultFactors, defaultConversions, negativeWasteInputs, zeroInputs, habs]

/-- C5, witness: the waste formula evaluated at wasteBags 1 and
recyclingPercent 100 over the default factor table. -/
theorem claim_C5_waste_formula_witness :
    negativeWasteInputs.wasteBags = some 1 ∧ (0 : ℚ) ≤ 1
    ∧ negativeWasteInputs.recyclingPercent = some 100 ∧ (0 : ℚ) ≤ 100 ∧ (100 : ℚ) ≤ 100
    ∧ (computeFootprint defaultFactors defaultConversions negativeWasteInputs).breakdown.waste
        = 1 * defaultFactors.waste.wasteBag * 52
          - 1 * defaultFactors.waste.wasteBag * 52 * (100 / 100)
              * |defaultFactors.waste.recyclingOffset| :=
  ⟨rfl, by norm_num, rfl, by norm_num, by norm_num,
   (claim_C5_waste_formula defaultFactors defaultConversions negativeWasteInputs).2.1 1 100 rfl
     (by norm_num) rfl (by norm_num) (by norm_num)⟩

/-- C6, counterexample: with the factor table present but the conversion
constants structurally missing, `calculateFootprint` does not signal the
configuration error; the thrown access error is caught and a zero result is
stored and displayed — refuting "no silent zero result is produced". -/
theorem claim_C6_counterexample :
    calculateFootprint (some { emissionFactors := some defaultFactors, conversions := none })
        zeroInputs ≠ .configError
    ∧ storedCo2e (calculateFootprint
        (some { emissionFactors := some defaultFactors, conversions := none }) zeroInputs)
        = some 0
    ∧ displayedCo2e (calculateFootprint
        (some { emissionFactors := some defaultFactors, conversions := none }) zeroInputs)
        = some 0 := by
  refine ⟨?_, rfl, ?_⟩
  · simp [calculateFootprint]
  · simp [calculateFootprint, displayedCo2e, displayValue]

/-- C6, amended: when the configuration object or its emissionFactors table
is structurally missing the call signals the configuration error and stores
and displays nothing; but when only the conversion constants are missing
the failure is caught mid-computation and a zero result is stored. -/
theorem claim_C6_config_error_amended (inp : RawInputs) (factors : EmissionFactors)
    (conv : Option Conversions) :
    calculateFootprint none inp = .configError
    ∧ calculateFootprint (some { emissionFactors := none, conversions := conv }) inp
        = .configError
    ∧ storedCo2e .configError = none
    ∧ displayedCo2e .configError = none
    ∧ calculateFootprint (some { emissionFactors := some factors, conversions := none }) inp
        = .caughtZero
    ∧ storedCo2e .caughtZero = some 0 :=
  ⟨rfl, rfl, rfl, rfl, rfl, rfl⟩

/-- C7: with a complete configuration the engine never fails: every raw
input combination produces a successful result, and a field that is absent
or non-numeric behaves exactly as the value 0. -/
theorem claim_C7_never_raises (factors : EmissionFactors) (conv : Conversions)
    (inp : RawInputs) :
    calculateFootprint (some { emissionFactors := some factors, conversions := some conv }) inp
        = .ok (computeFootprint factors conv inp)
    ∧ (∀ f : Field, computeFootprint factors conv (setField inp f none)
        = computeFootprint factors conv (setField inp f (some 0))) :=
  ⟨rfl, fun f => congrArg (computeClean factors conv) (sanitize_setField_none inp f)⟩

/-- C8: with the default factors and input carMiles 100, electricity 300,
renewablePercent 50 and all other fields 0, the transport breakdown is
492 kg (all of it the car term), the energy breakdown 419.4 kg (all of it
electricity), the other categories 0, and the total 0.9114 tonnes. -/
theorem claim_C8_end_to_end :
    (computeFootprint defaultFactors defaultConversions mixedExampleInputs).breakdown.transport
        = 492
    ∧ (computeFootprint defaultFactors defaultConversions mixedExampleInputs).breakdown.energy
        = 419.4
    ∧ (computeFootprint defaultFactors defaultConversions mixedExampleInputs).breakdown.food = 0
    ∧ (computeFootprint defaultFactors defaultConversions mixedExampleInputs).breakdown.waste = 0
    ∧ (computeFootprint defaultFactors defaultConversions mixedExampleInputs).breakdown.shopping
        = 0
    ∧ (computeFootprint defaultFactors defaultConversions mixedExampleInputs).co2e = 0.9114 := by
  norm_num [computeFootprint, computeClean, sanitizeInputs, safeParseFloat, clampPercent,
    defaultFactors, defaultConversions, mixedExampleInputs, zeroInputs]

/-- C9: a previous entry whose co2e is 0 or absent behaves exactly like a
null previous entry, both in the displayed comparison and in the saved
notes suffix. -/
theorem claim_C9_zero_previous (t : ℚ) (p : LogEntry)
    (h : p.co2e = some 0 ∨ p.co2e = none) :
    compareWithPrevious t (some p) = compareWithPrevious t none
    ∧ saveNotesSuffix t (some p) = saveNotesSuffix t none := by
  rcases h with h | h <;>
    simp [compareWithPrevious, saveNotesSuffix, co2eTruthy, h]

/-- C9, witness: the zero-previous property evaluated at a concrete entry
with co2e 0. -/
theorem claim_C9_zero_previous_witness :
    (({ co2e := some 0, timestamp := 7 } : LogEntry).co2e = some 0
        ∨ ({ co2e := some 0, timestamp := 7 } : LogEntry).co2e = none)
    ∧ compareWithPrevious 3 (some { co2e := some 0, timestamp := 7 })
        = compareWithPrevious 3 none
    ∧ saveNotesSuffix 3 (some { co2e := some 0, timestamp := 7 }) = saveNotesSuffix 3 none :=
  ⟨Or.inl rfl,
   (claim_C9_zero_previous 3 { co2e := some 0, timestamp := 7 } (Or.inl rfl)).1,
   (claim_C9_zero_previous 3 { co2e := some 0, timestamp := 7 } (Or.inl rfl)).2⟩

/-- C10: the displayed value floors negative totals at 0 and passes
non-negative totals through, while the stored calculation retains the raw
total; at the negative-waste input the stored value is −0.026 tonnes and
the displayed value 0, so they differ. -/
theorem claim_C10_display_vs_stored :
    (∀ t : ℚ, t < 0 → displayValue t = 0)
    ∧ (∀ t : ℚ, 0 ≤ t → displayValue t = t)
    ∧ storedCo2e (calculateFootprint (some fullDefaultConfig) negativeWasteInputs)
        = some (-0.026)
    ∧ displayedCo2e (calculateFootprint (some fullDefaultConfig) negativeWasteInputs) = some 0
    ∧ displayedCo2e (calculateFootprint (some fullDefaultConfig) negativeWasteInputs)
        ≠ storedCo2e (calculateFootprint (some fullDefaultConfig) negativeWasteInputs) := by
  have hco2e : (computeFootprint defaultFactors defaultConversions negativeWasteInputs).co2e
      = -0.026 := by
    have habs : |(6 / 5 : ℚ)| = 6 / 5 := abs_of_pos (by norm_num)
    norm_num [computeFootprint, computeClean, sanitizeInputs, safeParseFloat, clampPercent,
      defaultFactors, defaultConversions, negativeWasteInputs, zeroInputs, habs]
  refine ⟨fun t h => if_pos h, fun t h => if_neg (not_lt.mpr h), ?_, ?_, ?_⟩
  · simp [calculateFootprint, fullDefaultConfig, storedCo2e, hco2e]
  · simp [calculateFootprint, fullDefaultConfig, displayedCo2e, displayValue, hco2e]
    norm_num
  · simp [calculateFootprint, fullDefaultConfig, displayedCo2e, storedCo2e, displayValue, hco2e]
    norm_num

/-- C10, witness: the display floor evaluated at −1. -/
theorem claim_C10_display_vs_stored_witness : (-1 : ℚ) < 0 ∧ displayValue (-1) = 0 :=
  ⟨by norm_num, claim_C10_display_vs_stored.1 (-1) (by norm_num)⟩

end CarbonApp
